import Mathlib

/-!
Shallow embedding of the FootballMatches server (`src/server.js`): the
upstream fetcher `fetchMatches`, the node-cache-backed TTL cache, and the
two match route handlers.  Time is modelled as seconds since the Unix
epoch (`Nat`); instants stored in results are kept as raw `Nat` seconds.
The upstream network is modelled as an oracle `Request → FetchOutcome`
supplied to `fetchMatches`; the returned `FetchResult` additionally
records the outbound request that was issued, if any, so that claims
about "no network call" are statable.
-/

namespace FootballMatches

/-- JavaScript string truthiness for an optional string field:
`null`/absent and `""` are falsy, every other string is truthy.
Used for `if (!API_TOKEN)`, `if (dateFrom)`, `if (dateTo)`, `if (data.error)`. -/
def truthy : Option String → Bool
  | none => false
  | some s => s != ""

/-- A match record from the upstream API.  Only `status` is inspected by the
server; every other field is an opaque passthrough, modelled by `payload`. -/
structure MatchRec where
  status : String
  payload : String := ""
deriving DecidableEq, Repr

/-- The statuses retained by the fetcher's filter
(`['SCHEDULED', 'LIVE', 'IN_PLAY', 'PAUSED'].includes(m.status)`). -/
def allowedStatuses : List String := ["SCHEDULED", "LIVE", "IN_PLAY", "PAUSED"]

/-- The uniform result shape produced by `fetchMatches`.
`none` models an absent JSON field; `timestamp` keeps the raw time. -/
structure MatchQueryResult where
  «matches» : List MatchRec := []
  count : Nat := 0
  totalAvailable : Option Nat := none
  error : Option String := none
  timestamp : Option Nat := none
deriving DecidableEq, Repr

/-- The query parameters of the outbound request to the upstream API
(`dateFrom`/`dateTo` appended to the URL when present). -/
structure Request where
  dateFromParam : Option String := none
  dateToParam : Option String := none
deriving DecidableEq, Repr

/-- The parsed JSON body of an upstream response.  `matchesField = none`
models a body whose `matches` field is absent or not an array
(`Array.isArray(data.matches)` false). -/
structure JsonBody where
  matchesField : Option (List MatchRec) := none
deriving DecidableEq, Repr

/-- Outcome of `res.json()`: either the body is not valid JSON (the promise
rejects with some message) or it parses to a body object. -/
inductive JsonOutcome where
  | failed (msg : String)
  | parsed (body : JsonBody)
deriving DecidableEq, Repr

/-- An HTTP response from the upstream.  `textResult = none` models
`res.text()` rejecting (degraded to `'Unknown error'` by the code). -/
structure HttpResponse where
  ok : Bool
  status : Nat
  textResult : Option String := none
  jsonResult : JsonOutcome := .failed ""
deriving DecidableEq, Repr

/-- Outcome of the outbound `fetch` call itself: the promise rejects
(network error / timeout) or resolves to a response. -/
inductive FetchOutcome where
  | reject (msg : String)
  | response (r : HttpResponse)
deriving DecidableEq, Repr

/-! ### Calendar dates

`new Date(s)` / `toISOString().split('T')[0]` are modelled for the
date-only ISO form `YYYY-MM-DD` (the only form this server produces and
the form its API expects); any other string is treated as an invalid
date.  A date value is the signed number of days since 1970-01-01. -/

/-- Leap year test of the Gregorian calendar. -/
def isLeapYear (y : Int) : Bool :=
  (y % 4 == 0 && y % 100 != 0) || (y % 400 == 0)

/-- Number of days in month `m` (1–12) of year `y`. -/
def daysInMonth (y : Int) (m : Nat) : Nat :=
  if m = 2 then (if isLeapYear y then 29 else 28)
  else if m = 4 ∨ m = 6 ∨ m = 9 ∨ m = 11 then 30
  else 31

/-- Days since 1970-01-01 of the civil date `y-m-d` (standard civil-calendar
conversion). -/
def daysFromCivil (y0 : Int) (m d : Nat) : Int :=
  let y : Int := if m ≤ 2 then y0 - 1 else y0
  let era : Int := y.ediv 400
  let yoe : Nat := (y.emod 400).toNat
  let doy : Nat := (153 * (if m > 2 then m - 3 else m + 9) + 2) / 5 + d - 1
  let doe : Nat := yoe * 365 + yoe / 4 - yoe / 100 + doy
  era * 146097 + (doe : Int) - 719468

/-- Civil date `(y, m, d)` of the day `z` (days since 1970-01-01). -/
def civilFromDays (z0 : Int) : Int × Nat × Nat :=
  let z : Int := z0 + 719468
  let era : Int := z.ediv 146097
  let doe : Nat := (z.emod 146097).toNat
  let yoe : Nat := (doe - doe / 1460 + doe / 36524 - doe / 146096) / 365
  let y : Int := (yoe : Int) + era * 400
  let doy : Nat := doe - (365 * yoe + yoe / 4 - yoe / 100)
  let mp : Nat := (5 * doy + 2) / 153
  let d : Nat := doy - (153 * mp + 2) / 5 + 1
  let m : Nat := if mp < 10 then mp + 3 else mp - 9
  (if m ≤ 2 then y + 1 else y, m, d)

/-- Left-pad a string with `'0'` to width `w`. -/
def padZero (w : Nat) (s : String) : String :=
  String.mk (List.replicate (w - s.length) '0') ++ s

/-- ISO `YYYY-MM-DD` rendering of a day number
(`toISOString().split('T')[0]`). -/
def formatDate (z : Int) : String :=
  let c := civilFromDays z
  padZero 4 (toString c.1.toNat) ++ "-" ++ padZero 2 (toString c.2.1)
    ++ "-" ++ padZero 2 (toString c.2.2)

/-- Split a character list at every `'-'` (the behaviour of
`splitOn "-"`: `"" ↦ [""]`, `"a-b" ↦ ["a", "b"]`). -/
def splitDash : List Char → List (List Char)
  | [] => [[]]
  | c :: rest =>
    match splitDash rest with
    | [] => []
    | g :: gs => if c = '-' then [] :: g :: gs else (c :: g) :: gs

/-- Parse a non-empty list of decimal digits; `none` if empty or any
character is not a digit. -/
def parseNatDigits (cs : List Char) : Option Nat :=
  match cs with
  | [] => none
  | _ =>
    cs.foldl
      (fun acc c =>
        match acc with
        | some a => if c.isDigit then some (a * 10 + (c.toNat - 48)) else none
        | none => none)
      (some 0)

/-- `new Date(s)` for a date-only string, as a day number: `some` days since
1970-01-01 when `s` is a valid `YYYY-MM-DD` calendar date, `none` when the
parse yields an Invalid Date (`isNaN(date)`). -/
def parseDate (s : String) : Option Int :=
  match splitDash s.data with
  | [ys, ms, ds] =>
    if ys.length = 4 ∧ ms.length = 2 ∧ ds.length = 2 then
      match parseNatDigits ys, parseNatDigits ms, parseNatDigits ds with
      | some y, some m, some d =>
        if 1 ≤ m ∧ m ≤ 12 ∧ 1 ≤ d ∧ d ≤ daysInMonth (y : Int) m then
          some (daysFromCivil (y : Int) m d)
        else none
      | _, _, _ => none
    else none
  | _ => none

/-- The UTC day number of a clock reading (seconds since the epoch). -/
def epochDay (now : Nat) : Int := ((now / 86400 : Nat) : Int)

/-- `getDateString(offset)` of `server.js`: today's UTC date shifted by
`offset` days, as an ISO `YYYY-MM-DD` string. -/
def getDateString (now : Nat) (offset : Int) : String :=
  formatDate (epochDay now + offset)

/-! ### The upstream fetcher -/

/-- The result of a `fetchMatches` call together with the outbound request
it issued (`none` when no network call was made). -/
structure FetchResult where
  result : MatchQueryResult
  request : Option Request
deriving DecidableEq, Repr

/-- The `dateTo` default of `fetchMatches`: when `dateFrom` is truthy and
`dateTo` is not, `dateTo` becomes `dateFrom + 5 days` (this step runs only
after `dateFrom` has been validated, so the `getD 0` fallback is never
reached on a live path). -/
def effectiveDateTo (dateFrom dateTo : Option String) : Option String :=
  if truthy dateFrom && !truthy dateTo then
    some (formatDate ((parseDate (dateFrom.getD "")).getD 0 + 5))
  else dateTo

/-- The query parameters appended to the upstream URL: each date is sent
only when truthy (`params.append` is guarded by `if (dateFrom)` /
`if (dateTo)`). -/
def buildRequest (dateFrom dateTo : Option String) : Request :=
  { dateFromParam := if truthy dateFrom then dateFrom else none,
    dateToParam := if truthy dateTo then dateTo else none }

/-- Response handling of `fetchMatches` after the `fetch` call: a rejected
promise, a non-ok status, or a JSON parse failure throws (carrying the
request that was issued); otherwise the match list is read (`[]` when
absent or not an array), filtered by status, and packaged. -/
def handleResponse (o : FetchOutcome) (req : Request) :
    Except (String × Option Request) (MatchQueryResult × Request) :=
  match o with
  | .reject msg => .error (msg, some req)
  | .response r =>
    if !r.ok then
      .error ("API Error " ++ toString r.status ++ ": "
                ++ r.textResult.getD "Unknown error", some req)
    else
      match r.jsonResult with
      | .failed msg => .error (msg, some req)
      | .parsed body =>
        let ms := body.matchesField.getD []
        let filtered := ms.filter (fun m => allowedStatuses.contains m.status)
        .ok ({ «matches» := filtered, count := filtered.length,
               totalAvailable := some ms.length }, req)

/-- The body of the `try` block of `fetchMatches`: date validation, the
`dateTo` default, parameter assembly, the `fetch` call and response
handling.  An exception is a message together with the request issued
before the throw, if any. -/
def tryFetch (net : Request → FetchOutcome) (dateFrom dateTo : Option String) :
    Except (String × Option Request) (MatchQueryResult × Request) :=
  if truthy dateFrom && (parseDate (dateFrom.getD "")).isNone then
    .error ("Invalid dateFrom format", none)
  else
    let dateTo : Option String := effectiveDateTo dateFrom dateTo
    if truthy dateTo && (parseDate (dateTo.getD "")).isNone then
      .error ("Invalid dateTo format", none)
    else
      let req : Request := buildRequest dateFrom dateTo
      handleResponse (net req) req

/-- `fetchMatches(dateFrom, dateTo)` of `server.js`.  `token` is
`process.env.FOOTBALL_API_TOKEN`; `net` is the network; `now` only feeds
the catch-path timestamp. -/
def fetchMatches (now : Nat) (token : Option String) (net : Request → FetchOutcome)
    (dateFrom dateTo : Option String) : FetchResult :=
  if !truthy token then
    { result := { «matches» := [], count := 0, error := some "API token missing" },
      request := none }
  else
    match tryFetch net dateFrom dateTo with
    | .ok (r, req) => { result := r, request := some req }
    | .error (msg, req?) =>
      { result := { «matches» := [], count := 0, error := some msg,
                    timestamp := some now },
        request := req? }

/-! ### The TTL cache and the route handlers

The node-cache instance is modelled as an association list of
`(key, value, expiresAt)` entries; `set` with an explicit TTL stores
`expiresAt = now + ttl` and replaces any previous entry for the key;
`get` returns the entry only while `now ≤ expiresAt` (read-time expiry
is authoritative). -/

/-- The in-memory cache: `(key, stored value, expiry time in seconds)`. -/
abbrev Cache := List (String × MatchQueryResult × Nat)

/-- `cache.get(key)` at time `now`: the stored value if an unexpired entry
for `key` exists, otherwise `none`. -/
def Cache.get (c : Cache) (now : Nat) (key : String) : Option MatchQueryResult :=
  match c.find? (fun e => e.1 == key) with
  | some e => if now ≤ e.2.2 then some e.2.1 else none
  | none => none

/-- `cache.set(key, v, ttl)` at time `now`: store `v` under `key` with
expiry `now + ttl`, replacing any previous entry for `key`. -/
def Cache.set (c : Cache) (now : Nat) (key : String) (v : MatchQueryResult) (ttl : Nat) : Cache :=
  (key, v, now + ttl) :: c.filter (fun e => !(e.1 == key))

/-- The JSON reply sent by a route handler: the result payload plus the
`cached` flag and the `cacheTime`/`fetchTime` instants the handler adds
(absent on the 503 error reply). -/
structure Reply where
  status : Nat
  result : MatchQueryResult
  cached : Option Bool := none
  cacheTime : Option Nat := none
  fetchTime : Option Nat := none
deriving DecidableEq, Repr

/-- Observable outcome of one route-handler run: the HTTP reply, the cache
afterwards, whether `fetchMatches` (the loader) was invoked, and the
outbound request it issued if so. -/
structure HandlerOut where
  reply : Reply
  cache : Cache
  loaderInvoked : Bool
  request : Option Request := none
deriving DecidableEq, Repr

/-- The shared body of the two match route handlers: check the cache for
`key`; on a hit reply with the stored value plus `cached: true`; on a miss
take the loader's result `fr`, reply 503 with a sanitized error if it is
errored (without caching), otherwise store it for `ttl` seconds and reply
with `cached: false`. -/
def routeHandler (now : Nat) (key : String) (ttl : Nat) (fr : FetchResult)
    (c : Cache) : HandlerOut :=
  match Cache.get c now key with
  | some v =>
    { reply := { status := 200, result := v, cached := some true, cacheTime := some now },
      cache := c, loaderInvoked := false }
  | none =>
    if truthy fr.result.error then
      { reply := { status := 503,
                   result := { fr.result with error := some "Service temporarily unavailable" } },
        cache := c, loaderInvoked := true, request := fr.request }
    else
      { reply := { status := 200, result := fr.result, cached := some false,
                   fetchTime := some now },
        cache := Cache.set c now key fr.result ttl, loaderInvoked := true,
        request := fr.request }

/-- Cache key of the today route: `matches_today_<today>`. -/
def todayKey (now : Nat) : String := "matches_today_" ++ getDateString now 0

/-- Cache key of the upcoming route: `matches_upcoming_from_<tomorrow>`. -/
def upcomingKey (now : Nat) : String := "matches_upcoming_from_" ++ getDateString now 1

/-- The loader call of the today route: `fetchMatches(today, tomorrow)`. -/
def todayFetch (now : Nat) (token : Option String) (net : Request → FetchOutcome) : FetchResult :=
  fetchMatches now token net (some (getDateString now 0)) (some (getDateString now 1))

/-- The loader call of the upcoming route: `fetchMatches(tomorrow)` with
`dateTo` left `null`. -/
def upcomingFetch (now : Nat) (token : Option String) (net : Request → FetchOutcome) : FetchResult :=
  fetchMatches now token net (some (getDateString now 1)) none

/-- `GET /api/matches/today`: key `matches_today_<today>`, TTL 1800 s. -/
def todayHandler (now : Nat) (token : Option String) (net : Request → FetchOutcome)
    (c : Cache) : HandlerOut :=
  routeHandler now (todayKey now) 1800 (todayFetch now token net) c

/-- `GET /api/matches/upcoming`: key `matches_upcoming_from_<tomorrow>`,
TTL 300 s. -/
def upcomingHandler (now : Nat) (token : Option String) (net : Request → FetchOutcome)
    (c : Cache) : HandlerOut :=
  routeHandler now (upcomingKey now) 300 (upcomingFetch now token net) c

/-- The request carried by a `tryFetch` outcome: `some` when the network
was reached (even if the response then failed), `none` when the call threw
before `fetch`. -/
def sentRequest :
    Except (String × Option Request) (MatchQueryResult × Request) → Option Request
  | .error (_, req?) => req?
  | .ok (_, req) => some req

/-- Cache evolution of a sequence of today-route requests at the given
times, starting from the empty cache. -/
def todayRuns (tok : Option String) (net : Request → FetchOutcome) (ts : List Nat) : Cache :=
  ts.foldl (fun c t => (todayHandler t tok net c).cache) []

/-- Cache evolution of a sequence of upcoming-route requests at the given
times, starting from the empty cache. -/
def upcomingRuns (tok : Option String) (net : Request → FetchOutcome) (ts : List Nat) : Cache :=
  ts.foldl (fun c t => (upcomingHandler t tok net c).cache) []

/-- Canned upstream body with one FINISHED and one LIVE match, for concrete
witness instances. -/
def mixedBody : JsonBody :=
  { matchesField := some [{ status := "FINISHED" }, { status := "LIVE" }] }

/-- Canned 200 response carrying `mixedBody`. -/
def mixedResponse : HttpResponse :=
  { ok := true, status := 200, jsonResult := .parsed mixedBody }

/-- Canned upstream body with an empty `matches` array. -/
def emptyBody : JsonBody := { matchesField := some [] }

/-- Canned 200 response carrying `emptyBody`. -/
def emptyOkResponse : HttpResponse :=
  { ok := true, status := 200, jsonResult := .parsed emptyBody }

/-- A network that always succeeds with an empty match list. -/
def okNet : Request → FetchOutcome := fun _ => .response emptyOkResponse

/-- A network whose fetch promise always rejects. -/
def downNet : Request → FetchOutcome := fun _ => .reject "down"

/-! ### Helper lemmas -/

theorem handleResponse_sent (o : FetchOutcome) (req : Request) :
    sentRequest (handleResponse o req) = some req := by
  cases o with
  | reject msg => rfl
  | response r =>
    simp only [handleResponse]
    split
    · rfl
    · cases r.jsonResult <;> rfl

theorem handleResponse_ok_of_response (resp : HttpResponse) (body : JsonBody) (req : Request)
    (hok : resp.ok = true) (hjson : resp.jsonResult = .parsed body) :
    handleResponse (.response resp) req
      = .ok ({ «matches» := (body.matchesField.getD []).filter
                  (fun m => allowedStatuses.contains m.status),
               count := ((body.matchesField.getD []).filter
                  (fun m => allowedStatuses.contains m.status)).length,
               totalAvailable := some (body.matchesField.getD []).length }, req) := by
  simp [handleResponse, hok, hjson]

theorem handleResponse_ok_inv (resp : HttpResponse) (req : Request)
    (r : MatchQueryResult) (req' : Request)
    (h : handleResponse (.response resp) req = .ok (r, req')) :
    resp.ok = true ∧ req' = req ∧
    ∃ body, resp.jsonResult = .parsed body ∧
      r = { «matches» := (body.matchesField.getD []).filter
                (fun m => allowedStatuses.contains m.status),
            count := ((body.matchesField.getD []).filter
                (fun m => allowedStatuses.contains m.status)).length,
            totalAvailable := some (body.matchesField.getD []).length } := by
  simp only [handleResponse] at h
  split at h
  · simp at h
  · next hok =>
    cases hj : resp.jsonResult with
    | failed msg => rw [hj] at h; simp at h
    | parsed body =>
      rw [hj] at h
      simp only [Except.ok.injEq, Prod.mk.injEq] at h
      exact ⟨by simpa using hok, h.2.symm, body, rfl, h.1.symm⟩

theorem handleResponse_ok_shape (o : FetchOutcome) (req : Request)
    (r : MatchQueryResult) (req' : Request)
    (h : handleResponse o req = .ok (r, req')) :
    req' = req ∧
    ∃ ms : List MatchRec,
      r = { «matches» := ms.filter (fun m => allowedStatuses.contains m.status),
            count := (ms.filter (fun m => allowedStatuses.contains m.status)).length,
            totalAvailable := some ms.length } := by
  cases o with
  | reject msg => simp [handleResponse] at h
  | response resp =>
    obtain ⟨-, hr, body, -, hb⟩ := handleResponse_ok_inv resp req r req' h
    exact ⟨hr, body.matchesField.getD [], hb⟩

theorem tryFetch_ok_via_handleResponse (net : Request → FetchOutcome)
    (df dt : Option String) (r : MatchQueryResult) (req : Request)
    (h : tryFetch net df dt = .ok (r, req)) :
    handleResponse (net (buildRequest df (effectiveDateTo df dt)))
        (buildRequest df (effectiveDateTo df dt)) = .ok (r, req) := by
  simp only [tryFetch] at h
  split at h
  · simp at h
  · split at h
    · simp at h
    · exact h

theorem tryFetch_ok_shape (net : Request → FetchOutcome) (df dt : Option String)
    (r : MatchQueryResult) (req : Request)
    (h : tryFetch net df dt = .ok (r, req)) :
    ∃ ms : List MatchRec,
      r = { «matches» := ms.filter (fun m => allowedStatuses.contains m.status),
            count := (ms.filter (fun m => allowedStatuses.contains m.status)).length,
            totalAvailable := some ms.length } :=
  (handleResponse_ok_shape _ _ _ _ (tryFetch_ok_via_handleResponse net df dt r req h)).2

theorem fetchMatches_no_token (now : Nat) (tok : Option String)
    (net : Request → FetchOutcome) (df dt : Option String)
    (htok : truthy tok = false) :
    fetchMatches now tok net df dt
      = { result := { «matches» := [], count := 0, error := some "API token missing" },
          request := none } := by
  simp [fetchMatches, htok]

theorem fetchMatches_ok (now : Nat) (tok : Option String)
    (net : Request → FetchOutcome) (df dt : Option String)
    (r : MatchQueryResult) (req : Request) (htok : truthy tok = true)
    (h : tryFetch net df dt = .ok (r, req)) :
    fetchMatches now tok net df dt = { result := r, request := some req } := by
  simp [fetchMatches, htok, h]

theorem fetchMatches_error (now : Nat) (tok : Option String)
    (net : Request → FetchOutcome) (df dt : Option String)
    (msg : String) (req? : Option Request) (htok : truthy tok = true)
    (h : tryFetch net df dt = .error (msg, req?)) :
    fetchMatches now tok net df dt
      = { result := { «matches» := [], count := 0, error := some msg,
                      timestamp := some now },
          request := req? } := by
  simp [fetchMatches, htok, h]

theorem fetchMatches_request (now : Nat) (tok : Option String)
    (net : Request → FetchOutcome) (df dt : Option String) (htok : truthy tok = true) :
    (fetchMatches now tok net df dt).request = sentRequest (tryFetch net df dt) := by
  cases h : tryFetch net df dt with
  | error e =>
    obtain ⟨msg, req?⟩ := e
    rw [fetchMatches_error now tok net df dt msg req? htok h]
    rfl
  | ok pr =>
    obtain ⟨r, req⟩ := pr
    rw [fetchMatches_ok now tok net df dt r req htok h]
    rfl

theorem sentRequest_tryFetch (net : Request → FetchOutcome) (df dt : Option String)
    (req : Request) (h : sentRequest (tryFetch net df dt) = some req) :
    req = buildRequest df (effectiveDateTo df dt) := by
  simp only [tryFetch] at h
  split at h
  · simp [sentRequest] at h
  · split at h
    · simp [sentRequest] at h
    · rw [handleResponse_sent] at h
      exact (Option.some_inj.mp h).symm

theorem truthy_of_parse (s : String) (d : Int) (hparse : parseDate s = some d) :
    truthy (some s) = true := by
  by_contra hf
  have hs : s = "" := by
    simp [truthy] at hf
    exact hf
  rw [hs] at hparse
  have : parseDate "" = none := by decide
  rw [this] at hparse
  exact Option.noConfusion hparse

theorem formatDate_ne_empty (z : Int) : formatDate z ≠ "" := by
  intro h
  have hl := congrArg String.length h
  simp only [formatDate, String.length_append] at hl
  have h1 : ("-" : String).length = 1 := rfl
  have h2 : ("" : String).length = 0 := rfl
  rw [h1, h2] at hl
  omega

theorem routeHandler_hit (now : Nat) (key : String) (ttl : Nat) (fr : FetchResult)
    (c : Cache) (v : MatchQueryResult) (hm : Cache.get c now key = some v) :
    routeHandler now key ttl fr c
      = { reply := { status := 200, result := v, cached := some true, cacheTime := some now },
          cache := c, loaderInvoked := false } := by
  simp [routeHandler, hm]

theorem routeHandler_miss_error (now : Nat) (key : String) (ttl : Nat) (fr : FetchResult)
    (c : Cache) (hm : Cache.get c now key = none)
    (he : truthy fr.result.error = true) :
    routeHandler now key ttl fr c
      = { reply := { status := 503,
                     result := { fr.result with error := some "Service temporarily unavailable" } },
          cache := c, loaderInvoked := true, request := fr.request } := by
  simp [routeHandler, hm, he]

theorem routeHandler_miss_success (now : Nat) (key : String) (ttl : Nat) (fr : FetchResult)
    (c : Cache) (hm : Cache.get c now key = none)
    (he : truthy fr.result.error = false) :
    routeHandler now key ttl fr c
      = { reply := { status := 200, result := fr.result, cached := some false,
                     fetchTime := some now },
          cache := Cache.set c now key fr.result ttl, loaderInvoked := true,
          request := fr.request } := by
  simp [routeHandler, hm, he]

theorem routeHandler_miss_invoked (now : Nat) (key : String) (ttl : Nat) (fr : FetchResult)
    (c : Cache) (hm : Cache.get c now key = none) :
    (routeHandler now key ttl fr c).loaderInvoked = true := by
  simp only [routeHandler, hm]
  split <;> rfl

theorem cacheGet_set_expired (c : Cache) (n m ttl : Nat) (k : String) (v : MatchQueryResult)
    (h : n + ttl < m) : Cache.get (Cache.set c n k v ttl) m k = none := by
  unfold Cache.get Cache.set
  rw [List.find?_cons_of_pos _ (by simp)]
  show (if m ≤ n + ttl then some v else none) = none
  rw [if_neg (by omega)]

theorem routeHandler_cache_single (now : Nat) (K : String) (ttl : Nat) (fr : FetchResult)
    (c : Cache) (hc : c.length ≤ 1 ∧ ∀ e ∈ c, e.1 = K) :
    ((routeHandler now K ttl fr c).cache).length ≤ 1 ∧
      ∀ e ∈ (routeHandler now K ttl fr c).cache, e.1 = K := by
  unfold routeHandler
  split
  · exact hc
  · split
    · exact hc
    · dsimp only
      have hfil : c.filter (fun e => !(e.1 == K)) = [] := by
        rw [List.filter_eq_nil_iff]
        intro a ha
        simp [hc.2 a ha]
      constructor
      · simp [Cache.set, hfil]
      · intro e he
        simp only [Cache.set, hfil, List.mem_singleton] at he
        rw [he]

theorem runs_single_entry (keyOf : Nat → String) (ttl : Nat) (frs : Nat → FetchResult)
    (K : String) (ts : List Nat) (c : Cache)
    (hk : ∀ t ∈ ts, keyOf t = K)
    (hc : c.length ≤ 1 ∧ ∀ e ∈ c, e.1 = K) :
    ((ts.foldl (fun c t => (routeHandler t (keyOf t) ttl (frs t) c).cache) c)).length ≤ 1 ∧
    ∀ e ∈ ts.foldl (fun c t => (routeHandler t (keyOf t) ttl (frs t) c).cache) c, e.1 = K := by
  induction ts generalizing c with
  | nil => simpa using hc
  | cons t ts ih =>
    simp only [List.foldl_cons]
    have hkt : keyOf t = K := hk t (by simp)
    rw [hkt]
    exact ih _ (fun u hu => hk u (List.mem_cons_of_mem _ hu))
      (routeHandler_cache_single t K ttl (frs t) c hc)

/-! ### Claim theorems and witnesses -/

/-- C2: on every return path of `fetchMatches` (missing token, success,
caught error) the `count` field equals the length of `matches`. -/
theorem fetch_count_eq_length (now : Nat) (tok : Option String)
    (net : Request → FetchOutcome) (df dt : Option String) :
    (fetchMatches now tok net df dt).result.count
      = (fetchMatches now tok net df dt).result.«matches».length := by
  cases htok : truthy tok with
  | false => rw [fetchMatches_no_token now tok net df dt htok]; rfl
  | true =>
    cases h : tryFetch net df dt with
    | error e =>
      obtain ⟨msg, req?⟩ := e
      rw [fetchMatches_error now tok net df dt msg req? htok h]; rfl
    | ok pr =>
      obtain ⟨r, req⟩ := pr
      rw [fetchMatches_ok now tok net df dt r req htok h]
      obtain ⟨ms, rfl⟩ := tryFetch_ok_shape net df dt r req h
      rfl

/-- C7: with no API token configured, `fetchMatches` returns exactly the
token-missing result and issues no outbound request. -/
theorem missing_token_result (now : Nat) (net : Request → FetchOutcome)
    (df dt : Option String) :
    fetchMatches now none net df dt
      = { result := { «matches» := [], count := 0, error := some "API token missing" },
          request := none } := rfl

/-- C1: when the upstream responds 2xx with a well-formed body whose
`matches` field is the list `l`, and the call succeeds, every returned
match has a status in the allowed set and `totalAvailable` is the
pre-filter length of `l`. -/
theorem fetch_allowed_statuses_and_totalAvailable (now : Nat) (tok : Option String)
    (resp : HttpResponse) (body : JsonBody) (l : List MatchRec) (df dt : Option String)
    (hjson : resp.jsonResult = .parsed body) (hm : body.matchesField = some l)
    (hsucc : (fetchMatches now tok (fun _ => .response resp) df dt).result.error = none) :
    (∀ m ∈ (fetchMatches now tok (fun _ => .response resp) df dt).result.«matches»,
        m.status ∈ allowedStatuses) ∧
    (fetchMatches now tok (fun _ => .response resp) df dt).result.totalAvailable
      = some l.length := by
  cases htok : truthy tok with
  | false =>
    rw [fetchMatches_no_token now tok _ df dt htok] at hsucc
    exact absurd hsucc (by simp)
  | true =>
    cases h : tryFetch (fun _ => .response resp) df dt with
    | error e =>
      obtain ⟨msg, req?⟩ := e
      rw [fetchMatches_error now tok _ df dt msg req? htok h] at hsucc
      exact absurd hsucc (by simp)
    | ok pr =>
      obtain ⟨r, req⟩ := pr
      rw [fetchMatches_ok now tok _ df dt r req htok h]
      have h2 := tryFetch_ok_via_handleResponse _ df dt r req h
      obtain ⟨-, -, body', hj', hr⟩ := handleResponse_ok_inv resp _ r req h2
      rw [hjson] at hj'
      have hb : body = body' := by
        cases hj'
        rfl
      subst hb
      rw [hm] at hr
      subst hr
      constructor
      · intro m hmem
        simp only [Option.getD_some, List.mem_filter] at hmem
        have := hmem.2
        simpa [List.contains_iff_exists_mem_beq] using this
      · simp

theorem tryFetch_const_ok (resp : HttpResponse) (body : JsonBody) (df dt : Option String)
    (hok : resp.ok = true) (hjson : resp.jsonResult = .parsed body)
    (hreq : sentRequest (tryFetch (fun _ => .response resp) df dt) ≠ none) :
    tryFetch (fun _ => .response resp) df dt
      = .ok ({ «matches» := (body.matchesField.getD []).filter
                  (fun m => allowedStatuses.contains m.status),
               count := ((body.matchesField.getD []).filter
                  (fun m => allowedStatuses.contains m.status)).length,
               totalAvailable := some (body.matchesField.getD []).length },
             buildRequest df (effectiveDateTo df dt)) := by
  have hh := handleResponse_ok_of_response resp body
    (buildRequest df (effectiveDateTo df dt)) hok hjson
  simp only [tryFetch] at hreq ⊢
  by_cases h1 : (truthy df && (parseDate (df.getD "")).isNone) = true
  · rw [if_pos h1] at hreq
    simp [sentRequest] at hreq
  · rw [if_neg h1] at hreq ⊢
    by_cases h2 : (truthy (effectiveDateTo df dt)
        && (parseDate ((effectiveDateTo df dt).getD "")).isNone) = true
    · rw [if_pos h2] at hreq
      simp [sentRequest] at hreq
    · rw [if_neg h2]
      exact hh

/-- Shared fact behind C5 and the amended C4: whenever a `fetchMatches`
call with `dateFrom = some s` (parsing to day `d`) and `dateTo = null`
issues a request, that request carries `dateFrom = s` and
`dateTo = s + 5 days`. -/
theorem fetch_dateTo_default (now : Nat) (tok : Option String)
    (net : Request → FetchOutcome) (s : String) (d : Int) (r : Request)
    (hparse : parseDate s = some d)
    (hreq : (fetchMatches now tok net (some s) none).request = some r) :
    r.dateFromParam = some s ∧ r.dateToParam = some (formatDate (d + 5)) := by
  have htok : truthy tok = true := by
    cases htok : truthy tok with
    | true => rfl
    | false =>
      rw [fetchMatches_no_token now tok net _ _ htok] at hreq
      exact absurd hreq (by simp)
  rw [fetchMatches_request now tok net _ _ htok] at hreq
  have hr := sentRequest_tryFetch net _ _ _ hreq
  subst hr
  have hts : truthy (some s) = true := truthy_of_parse s d hparse
  have hde : effectiveDateTo (some s) none = some (formatDate (d + 5)) := by
    simp [effectiveDateTo, hts, hparse, show truthy none = false from rfl]
  rw [buildRequest, hde]
  refine ⟨by simp [hts], ?_⟩
  simp [truthy, formatDate_ne_empty (d + 5)]

/-- C5: if `dateFrom` is supplied (a parseable date) and `dateTo` omitted,
the outbound request's effective `dateTo` is `dateFrom + 5 days`. -/
theorem default_dateTo_is_dateFrom_plus_five (now : Nat) (tok : Option String)
    (net : Request → FetchOutcome) (s : String) (d : Int) (r : Request)
    (hparse : parseDate s = some d)
    (hreq : (fetchMatches now tok net (some s) none).request = some r) :
    r.dateToParam = some (formatDate (d + 5)) :=
  (fetch_dateTo_default now tok net s d r hparse hreq).2

/-- C10: a 2xx response whose JSON body lacks a `matches` array yields the
empty success result (no `error` field), not an errored result. -/
theorem missing_matches_field_empty_success (now : Nat) (tok : Option String)
    (resp : HttpResponse) (df dt : Option String)
    (hok : resp.ok = true) (hjson : resp.jsonResult = .parsed { matchesField := none })
    (hreq : (fetchMatches now tok (fun _ => .response resp) df dt).request ≠ none) :
    (fetchMatches now tok (fun _ => .response resp) df dt).result
      = { «matches» := [], count := 0, totalAvailable := some 0, error := none,
          timestamp := none } := by
  have htok : truthy tok = true := by
    cases htok : truthy tok with
    | true => rfl
    | false =>
      rw [fetchMatches_no_token now tok _ df dt htok] at hreq
      exact absurd rfl hreq
  rw [fetchMatches_request now tok _ df dt htok] at hreq
  have h := tryFetch_const_ok resp { matchesField := none } df dt hok hjson hreq
  rw [fetchMatches_ok now tok _ df dt _ _ htok h]
  rfl

/-- C8 counterexample: the supplied date string `""` fails to parse as a
calendar date, yet `fetchMatches` reports no error and issues an outbound
request (JavaScript falsiness skips the validation of empty strings). -/
theorem empty_dateFrom_cex :
    parseDate "" = none ∧
    (fetchMatches 0 (some "T")
        (fun _ => .response { ok := true, status := 200,
                              jsonResult := .parsed { matchesField := some [] } })
        (some "") none).result.error = none ∧
    (fetchMatches 0 (some "T")
        (fun _ => .response { ok := true, status := 200,
                              jsonResult := .parsed { matchesField := some [] } })
        (some "") none).request ≠ none := by decide

/-- C8 (amended): every supplied non-empty date string that fails to parse
makes `fetchMatches` fail with the corresponding invalid-date error,
returning no matches and issuing no outbound request — whether it is
`dateFrom`, `dateTo` alone, or `dateTo` next to a valid `dateFrom`. -/
theorem invalid_nonempty_date_errors (now : Nat) (tok : Option String)
    (net : Request → FetchOutcome) (s t : String) (dt : Option String) (d : Int)
    (htok : truthy tok = true) (hs : s ≠ "") (hbad : parseDate s = none)
    (ht : parseDate t = some d) :
    ((fetchMatches now tok net (some s) dt).result.error = some "Invalid dateFrom format" ∧
     (fetchMatches now tok net (some s) dt).result.«matches» = [] ∧
     (fetchMatches now tok net (some s) dt).request = none) ∧
    ((fetchMatches now tok net none (some s)).result.error = some "Invalid dateTo format" ∧
     (fetchMatches now tok net none (some s)).result.«matches» = [] ∧
     (fetchMatches now tok net none (some s)).request = none) ∧
    ((fetchMatches now tok net (some t) (some s)).result.error = some "Invalid dateTo format" ∧
     (fetchMatches now tok net (some t) (some s)).result.«matches» = [] ∧
     (fetchMatches now tok net (some t) (some s)).request = none) := by
  have hts : truthy (some s) = true := by simp [truthy, hs]
  have htt : truthy (some t) = true := truthy_of_parse t d ht
  have h1 : tryFetch net (some s) dt = .error ("Invalid dateFrom format", none) := by
    simp [tryFetch, hts, hbad]
  have h2 : tryFetch net none (some s) = .error ("Invalid dateTo format", none) := by
    simp [tryFetch, effectiveDateTo, hts, hbad, show truthy none = false from rfl]
  have h3 : tryFetch net (some t) (some s) = .error ("Invalid dateTo format", none) := by
    simp [tryFetch, effectiveDateTo, hts, htt, hbad, ht]
  rw [fetchMatches_error now tok net (some s) dt _ _ htok h1,
    fetchMatches_error now tok net none (some s) _ _ htok h2,
    fetchMatches_error now tok net (some t) (some s) _ _ htok h3]
  exact ⟨⟨rfl, rfl, rfl⟩, ⟨rfl, rfl, rfl⟩, ⟨rfl, rfl, rfl⟩⟩

/-- C3: on a miss, an errored loader result is not written to the cache
(for both match routes), so a second request — still missing and still
failing — reaches the loader again. -/
theorem errored_result_not_cached (now1 now2 now3 now4 : Nat) (tok : Option String)
    (net : Request → FetchOutcome) (c c' : Cache)
    (hm1 : Cache.get c now1 (todayKey now1) = none)
    (he1 : truthy (todayFetch now1 tok net).result.error = true)
    (hm2 : Cache.get c now2 (todayKey now2) = none)
    (he2 : truthy (todayFetch now2 tok net).result.error = true)
    (hm3 : Cache.get c' now3 (upcomingKey now3) = none)
    (he3 : truthy (upcomingFetch now3 tok net).result.error = true)
    (hm4 : Cache.get c' now4 (upcomingKey now4) = none)
    (he4 : truthy (upcomingFetch now4 tok net).result.error = true) :
    (todayHandler now1 tok net c).cache = c ∧
    (todayHandler now1 tok net c).loaderInvoked = true ∧
    (todayHandler now2 tok net (todayHandler now1 tok net c).cache).loaderInvoked = true ∧
    (upcomingHandler now3 tok net c').cache = c' ∧
    (upcomingHandler now3 tok net c').loaderInvoked = true ∧
    (upcomingHandler now4 tok net (upcomingHandler now3 tok net c').cache).loaderInvoked = true := by
  have e1 := routeHandler_miss_error now1 (todayKey now1) 1800 (todayFetch now1 tok net) c hm1 he1
  have e3 := routeHandler_miss_error now3 (upcomingKey now3) 300 (upcomingFetch now3 tok net) c' hm3 he3
  have hT : (todayHandler now1 tok net c).cache = c := by rw [todayHandler, e1]
  have hU : (upcomingHandler now3 tok net c').cache = c' := by rw [upcomingHandler, e3]
  refine ⟨hT, ?_, ?_, hU, ?_, ?_⟩
  · rw [todayHandler, e1]
  · rw [hT, todayHandler]
    exact routeHandler_miss_invoked now2 (todayKey now2) 1800 (todayFetch now2 tok net) c hm2
  · rw [upcomingHandler, e3]
  · rw [hU, upcomingHandler]
    exact routeHandler_miss_invoked now4 (upcomingKey now4) 300 (upcomingFetch now4 tok net) c' hm4

/-- C6: a request hitting an unexpired entry gets the stored result back
unchanged with `cached = true` and no loader call, and once a stored
entry's TTL has elapsed the next request for the same key invokes the
loader again (both routes). -/
theorem cache_hit_unchanged_then_expiry
    (nowH now1 now2 : Nat) (tok : Option String) (net : Request → FetchOutcome)
    (c cT cU : Cache) (v w : MatchQueryResult)
    (hhT : Cache.get cT nowH (todayKey nowH) = some v)
    (hhU : Cache.get cU nowH (upcomingKey nowH) = some w)
    (hmT : Cache.get c now1 (todayKey now1) = none)
    (hsT : truthy (todayFetch now1 tok net).result.error = false)
    (hmU : Cache.get c now1 (upcomingKey now1) = none)
    (hsU : truthy (upcomingFetch now1 tok net).result.error = false)
    (hkT : todayKey now2 = todayKey now1)
    (hkU : upcomingKey now2 = upcomingKey now1)
    (hlT : now1 + 1800 < now2) (hlU : now1 + 300 < now2) :
    ((todayHandler nowH tok net cT).reply.result = v ∧
     (todayHandler nowH tok net cT).reply.cached = some true ∧
     (todayHandler nowH tok net cT).loaderInvoked = false ∧
     (todayHandler nowH tok net cT).cache = cT) ∧
    ((upcomingHandler nowH tok net cU).reply.result = w ∧
     (upcomingHandler nowH tok net cU).reply.cached = some true ∧
     (upcomingHandler nowH tok net cU).loaderInvoked = false ∧
     (upcomingHandler nowH tok net cU).cache = cU) ∧
    (todayHandler now2 tok net (todayHandler now1 tok net c).cache).loaderInvoked = true ∧
    (upcomingHandler now2 tok net (upcomingHandler now1 tok net c).cache).loaderInvoked = true := by
  have eT := routeHandler_hit nowH (todayKey nowH) 1800 (todayFetch nowH tok net) cT v hhT
  have eU := routeHandler_hit nowH (upcomingKey nowH) 300 (upcomingFetch nowH tok net) cU w hhU
  have sT := routeHandler_miss_success now1 (todayKey now1) 1800 (todayFetch now1 tok net) c hmT hsT
  have sU := routeHandler_miss_success now1 (upcomingKey now1) 300 (upcomingFetch now1 tok net) c hmU hsU
  refine ⟨⟨?_, ?_, ?_, ?_⟩, ⟨?_, ?_, ?_, ?_⟩, ?_, ?_⟩
  · rw [todayHandler, eT]
  · rw [todayHandler, eT]
  · rw [todayHandler, eT]
  · rw [todayHandler, eT]
  · rw [upcomingHandler, eU]
  · rw [upcomingHandler, eU]
  · rw [upcomingHandler, eU]
  · rw [upcomingHandler, eU]
  · have hcache : (todayHandler now1 tok net c).cache
        = Cache.set c now1 (todayKey now1) (todayFetch now1 tok net).result 1800 := by
      rw [todayHandler, sT]
    rw [hcache, todayHandler]
    refine routeHandler_miss_invoked now2 _ 1800 _ _ ?_
    rw [hkT]
    exact cacheGet_set_expired c now1 now2 1800 (todayKey now1) _ hlT
  · have hcache : (upcomingHandler now1 tok net c).cache
        = Cache.set c now1 (upcomingKey now1) (upcomingFetch now1 tok net).result 300 := by
      rw [upcomingHandler, sU]
    rw [hcache, upcomingHandler]
    refine routeHandler_miss_invoked now2 _ 300 _ _ ?_
    rw [hkU]
    exact cacheGet_set_expired c now1 now2 300 (upcomingKey now1) _ hlU

/-- C4 counterexample: at time 0 on an empty cache the upcoming route's
outbound fetch carries `dateTo = 1970-01-07` — an upper bound five days
after tomorrow — refuting "no upper bound on dateTo". -/
theorem upcoming_no_upper_bound_cex :
    ((upcomingHandler 0 (some "T")
        (fun _ => .response { ok := true, status := 200,
                              jsonResult := .parsed { matchesField := some [] } })
        []).request.map Request.dateToParam) = some (some "1970-01-07") ∧
    ((upcomingHandler 0 (some "T")
        (fun _ => .response { ok := true, status := 200,
                              jsonResult := .parsed { matchesField := some [] } })
        []).request.map Request.dateToParam) ≠ some none := by decide

/-- C4 (amended): on a cache miss the upcoming route fetches the range
[tomorrow, tomorrow + 5 days]: the outbound request carries `dateFrom =
tomorrow` and `dateTo = tomorrow + 5 days` (the fetcher's default upper
bound), not an unbounded range. -/
theorem upcoming_fetch_range (now : Nat) (tok : Option String)
    (net : Request → FetchOutcome) (c : Cache) (d : Int) (r : Request)
    (hparse : parseDate (getDateString now 1) = some d)
    (hreq : (upcomingHandler now tok net c).request = some r) :
    r.dateFromParam = some (getDateString now 1)
      ∧ r.dateToParam = some (formatDate (d + 5)) := by
  have hfr : (upcomingFetch now tok net).request = some r := by
    simp only [upcomingHandler, routeHandler] at hreq
    split at hreq
    · simp at hreq
    · split at hreq
      · simpa using hreq
      · simpa using hreq
  simp only [upcomingFetch] at hfr
  exact fetch_dateTo_default now tok net _ d r hparse hfr

/-- C9 counterexample: a successful today-route request at 23:45 and
another at 00:01 the next day leave two entries in the cache, both
unexpired at 00:01 (the first until 00:15, TTL 1800 s) — two simultaneously
live entries for the today route. -/
theorem two_unexpired_today_entries_cex :
    (todayHandler 86460 (some "T")
        (fun _ => .response { ok := true, status := 200,
                              jsonResult := .parsed { matchesField := some [] } })
        (todayHandler 85500 (some "T")
          (fun _ => .response { ok := true, status := 200,
                                jsonResult := .parsed { matchesField := some [] } })
          []).cache).cache
      = [("matches_today_1970-01-02",
          { «matches» := [], count := 0, totalAvailable := some 0 }, 88260),
         ("matches_today_1970-01-01",
          { «matches» := [], count := 0, totalAvailable := some 0 }, 87300)] ∧
    86460 ≤ 87300 ∧ 86460 ≤ 88260 := by decide

/-- C9 (amended): for requests all falling on one calendar day the cache
holds at most one entry per route; only across a midnight boundary can a
second (stale-keyed, never again read) entry coexist until its TTL ends. -/
theorem same_day_at_most_one_entry_per_route (tok : Option String)
    (net : Request → FetchOutcome) (ts : List Nat) (D : Nat)
    (hd : ∀ t ∈ ts, t / 86400 = D) :
    (todayRuns tok net ts).length ≤ 1 ∧ (upcomingRuns tok net ts).length ≤ 1 := by
  constructor
  · have h := runs_single_entry todayKey 1800 (fun t => todayFetch t tok net)
      ("matches_today_" ++ formatDate ((D : Int) + 0)) ts []
      (fun t ht => by simp [todayKey, getDateString, epochDay, hd t ht]) (by simp)
    have huf : todayRuns tok net ts
        = ts.foldl
            (fun c t => (routeHandler t (todayKey t) 1800 (todayFetch t tok net) c).cache)
            [] := rfl
    rw [huf]
    exact h.1
  · have h := runs_single_entry upcomingKey 300 (fun t => upcomingFetch t tok net)
      ("matches_upcoming_from_" ++ formatDate ((D : Int) + 1)) ts []
      (fun t ht => by simp [upcomingKey, getDateString, epochDay, hd t ht]) (by simp)
    have huf : upcomingRuns tok net ts
        = ts.foldl
            (fun c t => (routeHandler t (upcomingKey t) 300 (upcomingFetch t tok net) c).cache)
            [] := rfl
    rw [huf]
    exact h.1

theorem fetch_allowed_statuses_and_totalAvailable_witness :
    (∀ m ∈ (fetchMatches 0 (some "T") (fun _ => .response mixedResponse)
        (some "1970-01-02") (some "1970-01-03")).result.«matches»,
        m.status ∈ allowedStatuses) ∧
    (fetchMatches 0 (some "T") (fun _ => .response mixedResponse)
        (some "1970-01-02") (some "1970-01-03")).result.totalAvailable
      = some ([({ status := "FINISHED" } : MatchRec), { status := "LIVE" }].length) :=
  fetch_allowed_statuses_and_totalAvailable 0 (some "T") mixedResponse mixedBody
    [{ status := "FINISHED" }, { status := "LIVE" }]
    (some "1970-01-02") (some "1970-01-03") rfl rfl (by decide)

theorem default_dateTo_is_dateFrom_plus_five_witness :
    ({ dateFromParam := some "1970-01-02", dateToParam := some "1970-01-07" } : Request).dateToParam
      = some (formatDate (1 + 5)) :=
  default_dateTo_is_dateFrom_plus_five 0 (some "T") downNet "1970-01-02" 1
    { dateFromParam := some "1970-01-02", dateToParam := some "1970-01-07" }
    (by decide) (by decide)

theorem missing_matches_field_empty_success_witness :
    (fetchMatches 0 (some "T")
        (fun _ => .response { ok := true, status := 200,
                              jsonResult := .parsed { matchesField := none } })
        none none).result
      = { «matches» := [], count := 0, totalAvailable := some 0, error := none,
          timestamp := none } :=
  missing_matches_field_empty_success 0 (some "T")
    { ok := true, status := 200, jsonResult := .parsed { matchesField := none } }
    none none rfl rfl (by decide)

theorem invalid_nonempty_date_errors_witness :
    ((fetchMatches 7 (some "T") downNet (some "not-a-date") none).result.error
        = some "Invalid dateFrom format" ∧
     (fetchMatches 7 (some "T") downNet (some "not-a-date") none).result.«matches» = [] ∧
     (fetchMatches 7 (some "T") downNet (some "not-a-date") none).request = none) ∧
    ((fetchMatches 7 (some "T") downNet none (some "not-a-date")).result.error
        = some "Invalid dateTo format" ∧
     (fetchMatches 7 (some "T") downNet none (some "not-a-date")).result.«matches» = [] ∧
     (fetchMatches 7 (some "T") downNet none (some "not-a-date")).request = none) ∧
    ((fetchMatches 7 (some "T") downNet (some "1970-01-02") (some "not-a-date")).result.error
        = some "Invalid dateTo format" ∧
     (fetchMatches 7 (some "T") downNet (some "1970-01-02") (some "not-a-date")).result.«matches» = [] ∧
     (fetchMatches 7 (some "T") downNet (some "1970-01-02") (some "not-a-date")).request = none) :=
  invalid_nonempty_date_errors 7 (some "T") downNet "not-a-date" "1970-01-02"
    none 1 (by decide) (by decide) (by decide) (by decide)

theorem errored_result_not_cached_witness :
    (todayHandler 0 (some "T") downNet []).cache = [] ∧
    (todayHandler 0 (some "T") downNet []).loaderInvoked = true ∧
    (todayHandler 1 (some "T") downNet
      (todayHandler 0 (some "T") downNet []).cache).loaderInvoked = true ∧
    (upcomingHandler 2 (some "T") downNet []).cache = [] ∧
    (upcomingHandler 2 (some "T") downNet []).loaderInvoked = true ∧
    (upcomingHandler 3 (some "T") downNet
      (upcomingHandler 2 (some "T") downNet []).cache).loaderInvoked = true :=
  errored_result_not_cached 0 1 2 3 (some "T") downNet [] []
    (by decide) (by decide) (by decide) (by decide)
    (by decide) (by decide) (by decide) (by decide)

theorem cache_hit_unchanged_then_expiry_witness :
    ((todayHandler 50 (some "T") okNet
        [("matches_today_1970-01-01", {}, 100)]).reply.result = {} ∧
     (todayHandler 50 (some "T") okNet
        [("matches_today_1970-01-01", {}, 100)]).reply.cached = some true ∧
     (todayHandler 50 (some "T") okNet
        [("matches_today_1970-01-01", {}, 100)]).loaderInvoked = false ∧
     (todayHandler 50 (some "T") okNet
        [("matches_today_1970-01-01", {}, 100)]).cache
          = [("matches_today_1970-01-01", {}, 100)]) ∧
    ((upcomingHandler 50 (some "T") okNet
        [("matches_upcoming_from_1970-01-02", {}, 100)]).reply.result = {} ∧
     (upcomingHandler 50 (some "T") okNet
        [("matches_upcoming_from_1970-01-02", {}, 100)]).reply.cached = some true ∧
     (upcomingHandler 50 (some "T") okNet
        [("matches_upcoming_from_1970-01-02", {}, 100)]).loaderInvoked = false ∧
     (upcomingHandler 50 (some "T") okNet
        [("matches_upcoming_from_1970-01-02", {}, 100)]).cache
          = [("matches_upcoming_from_1970-01-02", {}, 100)]) ∧
    (todayHandler 1801 (some "T") okNet
      (todayHandler 0 (some "T") okNet []).cache).loaderInvoked = true ∧
    (upcomingHandler 1801 (some "T") okNet
      (upcomingHandler 0 (some "T") okNet []).cache).loaderInvoked = true :=
  cache_hit_unchanged_then_expiry 50 0 1801 (some "T") okNet
    [] [("matches_today_1970-01-01", {}, 100)]
    [("matches_upcoming_from_1970-01-02", {}, 100)] {} {}
    (by decide) (by decide) (by decide) (by decide) (by decide) (by decide)
    (by decide) (by decide) (by decide) (by decide)

theorem upcoming_fetch_range_witness :
    ({ dateFromParam := some "1970-01-02", dateToParam := some "1970-01-07" } : Request).dateFromParam
        = some (getDateString 0 1) ∧
    ({ dateFromParam := some "1970-01-02", dateToParam := some "1970-01-07" } : Request).dateToParam
        = some (formatDate (1 + 5)) :=
  upcoming_fetch_range 0 (some "T") downNet [] 1
    { dateFromParam := some "1970-01-02", dateToParam := some "1970-01-07" }
    (by decide) (by decide)

theorem same_day_at_most_one_entry_per_route_witness :
    (todayRuns (some "T") okNet [0, 60]).length ≤ 1 ∧
    (upcomingRuns (some "T") okNet [0, 60]).length ≤ 1 :=
  same_day_at_most_one_entry_per_route (some "T") okNet [0, 60] 0 (by decide)

end FootballMatches
